import Mathlib

/-!
Verification of the per-iteration training/adaptation loop of `train.py`
(wavelet-guided 3D Gaussian splatting trainer).  Numeric tensors are
embedded as lists of rationals; iteration counters as naturals; the
per-iteration control flow is embedded as pure functions mirroring the
source line by line.
-/

namespace Wav3dgs

/-! ## Wavelet sub-band weight schedule (train.py lines 130-139) -/

/-- Embedding of train.py lines 130-139: the 3-entry wavelet sub-band
weight vector as a function of the iteration counter and the
densification window bounds.  The source initialises
`wavelet_weights = [0.0, 0.0, 15.0]`, overwrites it with
`[progress*50, progress*20, 15]` when
`densify_from_iter < iteration < densify_until_iter`, and with
`[0,0,0]` when `iteration > densify_until_iter`. -/
def wavelet_weights (iteration densify_from_iter densify_until_iter : ℕ) : List ℚ :=
  if densify_from_iter < iteration ∧ iteration < densify_until_iter then
    let progress : ℚ :=
      ((iteration : ℚ) - (densify_from_iter : ℚ)) /
        ((densify_until_iter : ℚ) - (densify_from_iter : ℚ))
    [progress * 50, progress * 20, 15]
  else if densify_until_iter < iteration then
    [0, 0, 0]
  else
    [0, 0, 15]

/-- The linear interpolation parameter `p` of the growth window. -/
def window_progress (iteration densify_from_iter densify_until_iter : ℕ) : ℚ :=
  ((iteration : ℚ) - (densify_from_iter : ℚ)) /
    ((densify_until_iter : ℚ) - (densify_from_iter : ℚ))

theorem window_progress_nonneg {i f u : ℕ} (hfu : f < u) (hi : f ≤ i) :
    0 ≤ window_progress i f u := by
  unfold window_progress
  apply div_nonneg
  · rw [sub_nonneg]
    exact_mod_cast hi
  · rw [sub_nonneg]
    exact_mod_cast hfu.le

theorem window_progress_mono {i j f u : ℕ} (hfu : f < u) (hij : i ≤ j) :
    window_progress i f u ≤ window_progress j f u := by
  unfold window_progress
  have hc : (0 : ℚ) < (u : ℚ) - (f : ℚ) := by
    rw [sub_pos]
    exact_mod_cast hfu
  have hij' : (i : ℚ) ≤ (j : ℚ) := by exact_mod_cast hij
  gcongr

theorem wavelet_weights_in_window {i f u : ℕ} (hfu : f < u) (h1 : f ≤ i) (h2 : i < u) :
    wavelet_weights i f u =
      [window_progress i f u * 50, window_progress i f u * 20, 15] := by
  rcases lt_or_eq_of_le h1 with h1' | h1'
  · unfold wavelet_weights window_progress
    rw [if_pos ⟨h1', h2⟩]
  · unfold wavelet_weights window_progress
    subst h1'
    rw [if_neg (by simp), if_neg (by omega)]
    simp

/-- C2 (counterexample): at the iteration equal to `densify_until_iter`
itself (here 15000, with window start 500), the code yields the baseline
vector `[0, 0, 15]`, not `[0, 0, 0]` as the claim states for "every
iteration at or after the window end". -/
theorem C2_weight_schedule_counterexample :
    wavelet_weights 15000 500 15000 = [0, 0, 15] ∧
      wavelet_weights 15000 500 15000 ≠ [0, 0, 0] := by
  constructor
  · unfold wavelet_weights
    rw [if_neg (by omega), if_neg (by omega)]
  · unfold wavelet_weights
    rw [if_neg (by omega), if_neg (by omega)]
    simp

/-- C2 (amended): the 3-entry wavelet sub-band weight vector equals
`[0, 0, 15]` before the growth-window start and also at the iteration
exactly equal to the window end; equals `[50*p, 20*p, 15]` with
`p = (iter - densify_from_iter) / (densify_until_iter - densify_from_iter)`
inside the window `[start, end)`; and equals `[0, 0, 0]` for every
iteration strictly after the window end; entries 0 and 1 increase
monotonically across the window. -/
theorem C2_weight_schedule (iteration f u : ℕ) (hfu : f < u) :
    (iteration < f → wavelet_weights iteration f u = [0, 0, 15]) ∧
    (f ≤ iteration → iteration < u →
      wavelet_weights iteration f u =
        [window_progress iteration f u * 50, window_progress iteration f u * 20, 15]) ∧
    (iteration = u → wavelet_weights iteration f u = [0, 0, 15]) ∧
    (u < iteration → wavelet_weights iteration f u = [0, 0, 0]) ∧
    (∀ i j : ℕ, f ≤ i → i ≤ j → j < u →
      (wavelet_weights i f u).getD 0 0 ≤ (wavelet_weights j f u).getD 0 0 ∧
      (wavelet_weights i f u).getD 1 0 ≤ (wavelet_weights j f u).getD 1 0) := by
  refine ⟨?_, ?_, ?_, ?_, ?_⟩
  · intro h
    unfold wavelet_weights
    rw [if_neg (by omega), if_neg (by omega)]
  · intro h1 h2
    exact wavelet_weights_in_window hfu h1 h2
  · intro h
    subst h
    unfold wavelet_weights
    rw [if_neg (by omega), if_neg (by omega)]
  · intro h
    unfold wavelet_weights
    rw [if_neg (by omega), if_pos h]
  · intro i j hi hij hj
    rw [wavelet_weights_in_window hfu hi (lt_of_le_of_lt hij hj),
      wavelet_weights_in_window hfu (le_trans hi hij) hj]
    have hmono := window_progress_mono (i := i) (j := j) (f := f) (u := u) hfu hij
    constructor
    · simp only [List.getD_cons_zero]
      nlinarith
    · simp only [List.getD_cons_succ, List.getD_cons_zero]
      nlinarith

/-- C2 (witness): the amended schedule theorem instantiated at the
concrete window 500..15000. -/
theorem C2_weight_schedule_witness :
    (500 < 15000) ∧
    ((600 < 500 → wavelet_weights 600 500 15000 = [0, 0, 15]) ∧
    (500 ≤ 600 → 600 < 15000 →
      wavelet_weights 600 500 15000 =
        [window_progress 600 500 15000 * 50, window_progress 600 500 15000 * 20, 15]) ∧
    (600 = 15000 → wavelet_weights 600 500 15000 = [0, 0, 15]) ∧
    (15000 < 600 → wavelet_weights 600 500 15000 = [0, 0, 0]) ∧
    (∀ i j : ℕ, 500 ≤ i → i ≤ j → j < 15000 →
      (wavelet_weights i 500 15000).getD 0 0 ≤ (wavelet_weights j 500 15000).getD 0 0 ∧
      (wavelet_weights i 500 15000).getD 1 0 ≤ (wavelet_weights j 500 15000).getD 1 0)) :=
  ⟨by omega, C2_weight_schedule 600 500 15000 (by omega)⟩

/-! ## Opacity-reset decision (train.py lines 331-341) -/

/-- Embedding of the opacity-reset decision in train.py lines 331-341:
`gaussians.reset_opacity()` is reached only inside the enclosing
`if iteration < opt.densify_until_iter` branch, and there exactly when
`iteration % opt.opacity_reset_interval == 0` or the dataset background
is white and `iteration == opt.densify_from_iter`. -/
def opacity_reset_triggered (iteration densify_until_iter densify_from_iter
    opacity_reset_interval : ℕ) (white_background : Bool) : Bool :=
  if iteration < densify_until_iter then
    (iteration % opacity_reset_interval == 0) ||
      (white_background && (iteration == densify_from_iter))
  else false

/-- C7 (counterexample): with `opacity_reset_interval = 3000` and
`densify_until_iter = 15000`, iteration 15000 is a multiple of the reset
interval yet no opacity reset is performed, because the reset check sits
inside the `iteration < densify_until_iter` branch. -/
theorem C7_opacity_reset_counterexample :
    15000 % 3000 = 0 ∧
      opacity_reset_triggered 15000 15000 500 3000 false = false := by
  constructor
  · norm_num
  · unfold opacity_reset_triggered
    rw [if_neg (by omega)]

/-- C7 (amended): an opacity reset is performed at iteration `i` if and
only if `i < densify_until_iter` and (`i` is a multiple of
`opacity_reset_interval`, or the background is all-white and `i` equals
`densify_from_iter`); at iterations at or past the window end no reset
is performed, even at multiples of the reset interval. -/
theorem C7_opacity_reset (iteration duntil dfrom interval : ℕ) (white : Bool) :
    opacity_reset_triggered iteration duntil dfrom interval white = true ↔
      iteration < duntil ∧
        (iteration % interval = 0 ∨ (white = true ∧ iteration = dfrom)) := by
  unfold opacity_reset_triggered
  by_cases h : iteration < duntil
  · rw [if_pos h]
    simp [h, Bool.or_eq_true, Bool.and_eq_true, beq_iff_eq]
  · rw [if_neg h]
    simp [h]

/-! ## Localizer activation vs. densify_and_prune invocation
(train.py lines 172-174 and 330-338) -/

/-- Embedding of train.py lines 172-174: `gaussians_to_densify` is
initialised to `None` each iteration and assigned the localizer's flagged
set exactly when `densify_from_iter <= iteration <= densify_until_iter`. -/
def localizer_output (iteration densify_from_iter densify_until_iter : ℕ)
    (flagged : List ℤ) : Option (List ℤ) :=
  if densify_from_iter ≤ iteration ∧ iteration ≤ densify_until_iter then
    some flagged
  else none

/-- Embedding of train.py lines 331 and 336: `densify_and_prune` is called
exactly when `iteration < densify_until_iter` (enclosing branch) and
`iteration > densify_from_iter` and
`iteration % densification_interval == 0`. -/
def densify_and_prune_invoked (iteration densify_from_iter densify_until_iter
    densification_interval : ℕ) : Bool :=
  decide (iteration < densify_until_iter) &&
    (decide (densify_from_iter < iteration) &&
      (iteration % densification_interval == 0))

/-- C9: whenever `densify_and_prune` is invoked, the `gaussians_to_densify`
argument passed to it holds the flagged set the localizer computed in that
same iteration (it is `some`, never the uninitialised `none`), because the
localizer's inclusive window contains every invoking iteration. -/
theorem C9_densify_argument_present (iteration dfrom duntil interval : ℕ)
    (flagged : List ℤ)
    (h : densify_and_prune_invoked iteration dfrom duntil interval = true) :
    localizer_output iteration dfrom duntil flagged = some flagged := by
  unfold densify_and_prune_invoked at h
  simp only [Bool.and_eq_true, decide_eq_true_eq, beq_iff_eq] at h
  unfold localizer_output
  rw [if_pos ⟨le_of_lt h.2.1, le_of_lt h.1⟩]

/-- C9 (witness): the invariant instantiated at iteration 600 with window
500..15000 and densification interval 100. -/
theorem C9_densify_argument_present_witness :
    densify_and_prune_invoked 600 500 15000 100 = true ∧
      localizer_output 600 500 15000 [3] = some [3] :=
  ⟨by decide, C9_densify_argument_present 600 500 15000 100 [3] (by decide)⟩

/-! ## Final-iteration optimizer-step skip (train.py lines 306-357) -/

/-- Result of the post-loss tail of one training iteration: the population
snapshot written by the save event, the snapshot written by the checkpoint
event, the population parameters after the densification block and the
(conditional) optimizer step, and the gradients still held afterwards
(`none` models gradients cleared by `zero_grad(set_to_none=True)`). -/
structure IterationTailResult (P G : Type) where
  saved : Option P
  checkpointed : Option P
  params_after : P
  grads_after : Option G

/-- Embedding of train.py lines 306-357 (the tail of one iteration after
the loss is assembled), in source order: `loss.backward()` computes
gradients from the current parameters; `scene.save` (line 326) snapshots
the parameters when the iteration is in `saving_iterations`; the
densification block (lines 330-341) then possibly mutates the population —
`densify_and_prune` under `densify_and_prune_invoked` (its growth
candidates depend on the gradient statistics, which line 334 updated from
this iteration's gradients, so the mutation takes `grads` as an input) and
`reset_opacity` under `opacity_reset_triggered`; the optimizer step and
gradient clearing run only under `if iteration < opt.iterations`
(lines 343-353); the checkpoint at `checkpoint_iterations` (line 357)
captures the parameters after all of that. -/
def iteration_tail {P G : Type} (iteration total : ℕ)
    (saving_iterations checkpoint_iterations : List ℕ)
    (densify_from_iter densify_until_iter densification_interval
      opacity_reset_interval : ℕ) (white_background : Bool)
    (params : P) (computeGrad : P → G) (densifyAndPrune : P → G → P)
    (resetOpacity : P → P) (optStep : P → G → P) :
    IterationTailResult P G :=
  let grads := computeGrad params
  let saved := if iteration ∈ saving_iterations then some params else none
  let densified :=
    if densify_and_prune_invoked iteration densify_from_iter
        densify_until_iter densification_interval = true then
      densifyAndPrune params grads
    else params
  let after_reset :=
    if opacity_reset_triggered iteration densify_until_iter densify_from_iter
        opacity_reset_interval white_background = true then
      resetOpacity densified
    else densified
  let stepped :=
    if iteration < total then (optStep after_reset grads, (none : Option G))
    else (after_reset, some grads)
  let checkpointed :=
    if iteration ∈ checkpoint_iterations then some stepped.1 else none
  ⟨saved, checkpointed, stepped.1, stepped.2⟩

/-- C10 (counterexample): run the training loop tail at final iteration
7000 (`--iterations 7000`) with the default window 500..15000,
densification interval 100 and opacity-reset interval 3000, parameters 2,
gradients `p + 1 = 3`, and `densify_and_prune` modelled as `p + g`.  The
final iteration triggers `densify_and_prune` (500 < 7000 < 15000 and
7000 % 100 == 0), which consumes the final iteration's gradients, so the
checkpoint of that iteration persists `5 = 2 + 3`, not the pre-iteration
parameters `2`: the claimed "checkpoint ... unchanged by the final
iteration's gradients" is false.  The save event, which precedes the
densification block, still persists `2`. -/
theorem C10_checkpoint_counterexample :
    (iteration_tail 7000 7000 [7000] [7000] 500 15000 100 3000 false
        (2 : ℚ) (fun p => p + 1) (fun p g => p + g) (fun p => p)
        (fun p g => p + g)).saved = some 2 ∧
    (iteration_tail 7000 7000 [7000] [7000] 500 15000 100 3000 false
        (2 : ℚ) (fun p => p + 1) (fun p g => p + g) (fun p => p)
        (fun p g => p + g)).checkpointed = some 5 ∧
    (iteration_tail 7000 7000 [7000] [7000] 500 15000 100 3000 false
        (2 : ℚ) (fun p => p + 1) (fun p g => p + g) (fun p => p)
        (fun p g => p + g)).checkpointed ≠ some 2 := by
  refine ⟨?_, ?_, ?_⟩ <;>
    norm_num [iteration_tail, densify_and_prune_invoked,
      opacity_reset_triggered]

/-- C10 (amended): at the final iteration (`iteration = opt.iterations`)
the backward pass still computes gradients and the optimizer step and
gradient clearing are skipped; the save event (which precedes the
densification block) persists the pre-iteration parameters; the checkpoint
event persists the parameters exactly as produced by the densification /
opacity-reset block, with no optimizer step applied; in particular,
whenever the final iteration triggers neither `densify_and_prune` nor
`reset_opacity` — e.g. whenever it lies at or past `densify_until_iter` —
the checkpointed parameters equal the pre-iteration parameters, unchanged
by the final iteration's gradients. -/
theorem C10_final_iteration_step_skipped {P G : Type} (iteration total : ℕ)
    (saving checkpointing : List ℕ)
    (dfrom duntil dinterval ointerval : ℕ) (white : Bool)
    (params : P) (computeGrad : P → G) (densifyAndPrune : P → G → P)
    (resetOpacity : P → P) (optStep : P → G → P)
    (hfinal : iteration = total) :
    (iteration_tail iteration total saving checkpointing dfrom duntil
        dinterval ointerval white params computeGrad densifyAndPrune
        resetOpacity optStep).grads_after = some (computeGrad params) ∧
    (iteration ∈ saving →
      (iteration_tail iteration total saving checkpointing dfrom duntil
        dinterval ointerval white params computeGrad densifyAndPrune
        resetOpacity optStep).saved = some params) ∧
    ((iteration_tail iteration total saving checkpointing dfrom duntil
        dinterval ointerval white params computeGrad densifyAndPrune
        resetOpacity optStep).params_after =
      (if opacity_reset_triggered iteration duntil dfrom ointerval
          white = true then
        resetOpacity
          (if densify_and_prune_invoked iteration dfrom duntil
              dinterval = true then
            densifyAndPrune params (computeGrad params)
          else params)
      else
        (if densify_and_prune_invoked iteration dfrom duntil
            dinterval = true then
          densifyAndPrune params (computeGrad params)
        else params))) ∧
    (densify_and_prune_invoked iteration dfrom duntil dinterval = false →
      opacity_reset_triggered iteration duntil dfrom ointerval
          white = false →
      (iteration_tail iteration total saving checkpointing dfrom duntil
          dinterval ointerval white params computeGrad densifyAndPrune
          resetOpacity optStep).params_after = params ∧
      (iteration ∈ checkpointing →
        (iteration_tail iteration total saving checkpointing dfrom duntil
          dinterval ointerval white params computeGrad densifyAndPrune
          resetOpacity optStep).checkpointed = some params)) ∧
    (duntil ≤ iteration → iteration ∈ checkpointing →
      (iteration_tail iteration total saving checkpointing dfrom duntil
        dinterval ointerval white params computeGrad densifyAndPrune
        resetOpacity optStep).checkpointed = some params) := by
  subst hfinal
  have hblock_off : duntil ≤ iteration →
      densify_and_prune_invoked iteration dfrom duntil dinterval = false ∧
        opacity_reset_triggered iteration duntil dfrom ointerval white = false := by
    intro hle
    constructor
    · unfold densify_and_prune_invoked
      simp [Nat.not_lt_of_le hle]
    · unfold opacity_reset_triggered
      rw [if_neg (by omega)]
  refine ⟨?_, ?_, ?_, ?_, ?_⟩
  · unfold iteration_tail
    simp
  · intro hmem
    unfold iteration_tail
    simp [hmem]
  · unfold iteration_tail
    simp
  · intro hdens hreset
    unfold iteration_tail
    simp [hdens, hreset]
  · intro hle hmem
    obtain ⟨hdens, hreset⟩ := hblock_off hle
    unfold iteration_tail
    simp [hdens, hreset, hmem]

/-- C10 (witness): the amended fact at final iteration 20000 (at or past
the window end 15000), where the densification block cannot fire and the
checkpoint persists the pre-iteration parameters. -/
theorem C10_final_iteration_step_skipped_witness :
    ((20000 : ℕ) = 20000) ∧
    ((iteration_tail 20000 20000 [20000] [20000] 500 15000 100 3000 false
        (2 : ℚ) (fun p => p + 1) (fun p g => p + g) (fun p => p)
        (fun p g => p + g)).grads_after = some ((2 : ℚ) + 1) ∧
    ((20000 : ℕ) ∈ [20000] →
      (iteration_tail 20000 20000 [20000] [20000] 500 15000 100 3000 false
        (2 : ℚ) (fun p => p + 1) (fun p g => p + g) (fun p => p)
        (fun p g => p + g)).saved = some 2) ∧
    ((iteration_tail 20000 20000 [20000] [20000] 500 15000 100 3000 false
        (2 : ℚ) (fun p => p + 1) (fun p g => p + g) (fun p => p)
        (fun p g => p + g)).params_after =
      (if opacity_reset_triggered 20000 15000 500 3000 false = true then
        (fun p => p)
          (if densify_and_prune_invoked 20000 500 15000 100 = true then
            (fun p g => p + g) (2 : ℚ) ((fun p => p + 1) (2 : ℚ))
          else (2 : ℚ))
      else
        (if densify_and_prune_invoked 20000 500 15000 100 = true then
          (fun p g => p + g) (2 : ℚ) ((fun p => p + 1) (2 : ℚ))
        else (2 : ℚ)))) ∧
    (densify_and_prune_invoked 20000 500 15000 100 = false →
      opacity_reset_triggered 20000 15000 500 3000 false = false →
      (iteration_tail 20000 20000 [20000] [20000] 500 15000 100 3000 false
        (2 : ℚ) (fun p => p + 1) (fun p g => p + g) (fun p => p)
        (fun p g => p + g)).params_after = 2 ∧
      ((20000 : ℕ) ∈ [20000] →
        (iteration_tail 20000 20000 [20000] [20000] 500 15000 100 3000 false
          (2 : ℚ) (fun p => p + 1) (fun p g => p + g) (fun p => p)
          (fun p g => p + g)).checkpointed = some 2)) ∧
    (15000 ≤ 20000 → (20000 : ℕ) ∈ [20000] →
      (iteration_tail 20000 20000 [20000] [20000] 500 15000 100 3000 false
        (2 : ℚ) (fun p => p + 1) (fun p g => p + g) (fun p => p)
        (fun p g => p + g)).checkpointed = some 2)) :=
  ⟨rfl, C10_final_iteration_step_skipped 20000 20000 [20000] [20000]
    500 15000 100 3000 false 2 (fun p => p + 1) (fun p g => p + g)
    (fun p => p) (fun p g => p + g) rfl⟩

/-! ## Sparse-adam availability guard (train.py lines 48-49 and 66) -/

/-- Outcome of entering `training`: either the process exits via
`sys.exit` (message printed, process status 1), or the main loop runs. -/
inductive TrainingStartOutcome where
  | exited (message : String) (exit_code : ℕ)
  | looped (iterations_executed : ℕ) (used_sparse_adam : Bool)
  deriving DecidableEq

/-- The message passed to `sys.exit` in train.py line 49. -/
def sparse_adam_exit_message : String :=
  "Trying to use sparse adam but it is not installed, please install the correct rasterizer using pip install [3dgs_accel]."

/-- Embedding of train.py lines 46-76: the guard at the top of `training`
calls `sys.exit(message)` — which terminates the process with status 1 —
when `optimizer_type == "sparse_adam"` and the sparse-adam implementation
is unavailable, before any iteration runs; otherwise the loop executes
iterations `first_iter+1 .. opt.iterations` with
`use_sparse_adam = (optimizer_type == "sparse_adam") and available`
(line 66). -/
def training_entry (sparse_adam_available : Bool) (optimizer_type : String)
    (first_iter iterations : ℕ) : TrainingStartOutcome :=
  if !sparse_adam_available && (optimizer_type == "sparse_adam") then
    .exited sparse_adam_exit_message 1
  else
    .looped (iterations - first_iter)
      ((optimizer_type == "sparse_adam") && sparse_adam_available)

/-- C8: selecting the sparse optimizer when its implementation is
unavailable terminates before executing any iteration, with the
descriptive message and process exit status 1 (non-zero); the loop is
never entered, so it is never silently downgraded to the dense
optimizer. -/
theorem C8_sparse_adam_guard (available : Bool) (optimizer_type : String)
    (first_iter iterations : ℕ) (hav : available = false)
    (hty : optimizer_type = "sparse_adam") :
    training_entry available optimizer_type first_iter iterations =
      .exited sparse_adam_exit_message 1 ∧
    (∀ n used, training_entry available optimizer_type first_iter iterations ≠
      .looped n used) := by
  subst hav hty
  unfold training_entry
  refine ⟨rfl, fun n used => ?_⟩
  simp

/-- C8 (witness): the guard outcome at the concrete configuration
`available = false`, `optimizer_type = "sparse_adam"`. -/
theorem C8_sparse_adam_guard_witness :
    (false = false) ∧ ("sparse_adam" = "sparse_adam") ∧
      (training_entry false "sparse_adam" 0 10 =
        .exited sparse_adam_exit_message 1 ∧
       ∀ n used, training_entry false "sparse_adam" 0 10 ≠ .looped n used) :=
  ⟨rfl, rfl, C8_sparse_adam_guard false "sparse_adam" 0 10 rfl rfl⟩

/-! ## Loss composition (train.py lines 251-254 and 292-306) -/

/-- Mean of a list of rationals, as `tensor.mean()` over a flat tensor. -/
def listMean (l : List ℚ) : ℚ := l.sum / l.length

/-- Embedding of train.py line 299:
`Ll1depth_pure = torch.abs((invDepth - mono_invdepth) * depth_mask).mean()`,
with the three tensors flattened to lists. -/
def Ll1depth_pure (invDepth mono_invdepth depth_mask : List ℚ) : ℚ :=
  listMean
    (List.zipWith3 (fun d m w => |(d - m) * w|) invDepth mono_invdepth depth_mask)

/-- Embedding of train.py lines 251-254 and 292-304: the total loss is
`(1 - lambda_dssim) * Ll1 + lambda_dssim * (1 - ssim_value) + wavelet_loss`,
and when `depth_l1_weight(iteration) > 0 and viewpoint_cam.depth_reliable`
the term `depth_l1_weight(iteration) * Ll1depth_pure` is added
(`loss += Ll1depth`); otherwise nothing is added.  `Ll1`, `ssim_value` and
`wavelet_loss` are the already-computed scalar values of the external
`l1_loss`/`ssim` calls and the wavelet term. -/
def total_loss (lambda_dssim Ll1 ssim_value wavelet_loss depth_weight : ℚ)
    (depth_reliable : Bool) (invDepth mono_invdepth depth_mask : List ℚ) : ℚ :=
  let L1_LOSS := (1 - lambda_dssim) * Ll1
  let SSIM_LOSS := lambda_dssim * (1 - ssim_value)
  let loss := L1_LOSS + SSIM_LOSS + wavelet_loss
  if 0 < depth_weight ∧ depth_reliable = true then
    loss + depth_weight * Ll1depth_pure invDepth mono_invdepth depth_mask
  else loss

theorem zipWith3_abs_mask (a b m : List ℚ) (hm : ∀ x ∈ m, 0 ≤ x) :
    List.zipWith3 (fun d mo wt => |(d - mo) * wt|) a b m =
      List.zipWith3 (fun d mo wt => |d - mo| * wt) a b m := by
  induction a generalizing b m with
  | nil => cases b <;> cases m <;> simp [List.zipWith3]
  | cons x xs ih =>
    cases b with
    | nil => simp [List.zipWith3]
    | cons y ys =>
      cases m with
      | nil => simp [List.zipWith3]
      | cons z zs =>
        simp only [List.zipWith3, List.cons.injEq]
        constructor
        · rw [abs_mul, abs_of_nonneg (hm z (List.mem_cons_self z zs))]
        · exact ih ys zs (fun x hx => hm x (List.mem_cons_of_mem z hx))

/-- C5: the total loss equals
`(1 - lambda_dssim) * L1 + lambda_dssim * (1 - structural_similarity)
 + wavelet_loss`, plus — exactly when the depth weight is positive and the
viewpoint is depth-reliable — the depth term
`weight * mean(|rendered_invdepth - reference_invdepth| * validity_mask)`;
when the viewpoint is not depth-reliable the depth contribution is zero.
The validity mask is elementwise non-negative. -/
theorem C5_total_loss (lam Ll1 ssim_value wavelet_loss w : ℚ) (rel : Bool)
    (a b m : List ℚ) (hm : ∀ x ∈ m, 0 ≤ x) :
    (total_loss lam Ll1 ssim_value wavelet_loss w rel a b m =
      (1 - lam) * Ll1 + lam * (1 - ssim_value) + wavelet_loss +
        (if 0 < w ∧ rel = true then
          w * listMean (List.zipWith3 (fun d mo wt => |d - mo| * wt) a b m)
        else 0)) ∧
    (rel = false →
      total_loss lam Ll1 ssim_value wavelet_loss w rel a b m =
        (1 - lam) * Ll1 + lam * (1 - ssim_value) + wavelet_loss) := by
  constructor
  · unfold total_loss Ll1depth_pure
    rw [zipWith3_abs_mask a b m hm]
    by_cases h : 0 < w ∧ rel = true
    · rw [if_pos h, if_pos h]
    · rw [if_neg h, if_neg h, add_zero]
  · intro hrel
    subst hrel
    unfold total_loss
    rw [if_neg (by simp)]

/-- C5 (witness): the loss-composition theorem at a concrete instance
with a reliable depth viewpoint and an all-ones validity mask. -/
theorem C5_total_loss_witness :
    (∀ x ∈ ([1] : List ℚ), 0 ≤ x) ∧
    ((total_loss (1/2) 4 (1/4) 3 1 true [2] [0] [1] =
      (1 - 1/2) * 4 + (1/2) * (1 - 1/4) + 3 +
        (if (0 : ℚ) < 1 ∧ true = true then
          1 * listMean (List.zipWith3 (fun d mo wt => |d - mo| * wt)
            [2] [0] ([1] : List ℚ))
        else 0)) ∧
     (true = false →
      total_loss (1/2) 4 (1/4) 3 1 true [2] [0] [1] =
        (1 - 1/2) * 4 + (1/2) * (1 - 1/4) + 3)) :=
  ⟨by norm_num, C5_total_loss (1/2) 4 (1/4) 3 1 true [2] [0] [1] (by norm_num)⟩

/-! ## Densification statistics tracking (train.py lines 330-334) -/

/-- Per-primitive running statistics held by the population: maximum
observed screen radius, accumulated gradient magnitude, and visit count. -/
structure DensifyStats where
  max_radii2D : List ℚ
  xyz_gradient_accum : List ℚ
  denom : List ℕ
  deriving DecidableEq

/-- Embedding of train.py line 333:
`gaussians.max_radii2D[visibility_filter] =
torch.max(gaussians.max_radii2D[visibility_filter], radii[visibility_filter])`
— the elementwise maximum written back only at visible positions. -/
def update_max_radii2D : List ℚ → List Bool → List ℚ → List ℚ
  | m :: ms, v :: vs, r :: rs =>
      (if v then max m r else m) :: update_max_radii2D ms vs rs
  | ms, _, _ => ms

/-- Modelled from the spec: `gaussians.add_densification_stats`
(train.py line 334) lives in the external `GaussianModel`; per the spec it
accumulates the position-space gradient magnitude, scoped to primitives
visible in that iteration. -/
def accumulate_grad : List ℚ → List Bool → List ℚ → List ℚ
  | a :: as', v :: vs, g :: gs =>
      (if v then a + g else a) :: accumulate_grad as' vs gs
  | as', _, _ => as'

/-- Modelled from the spec: the visit-count half of
`gaussians.add_densification_stats` — the denominator used for later
averaging is incremented at visible positions. -/
def accumulate_denom : List ℕ → List Bool → List ℕ
  | d :: ds, v :: vs => (if v then d + 1 else d) :: accumulate_denom ds vs
  | ds, _ => ds

/-- Embedding of train.py lines 330-334: the max-radius and gradient
statistics updates run only inside the `if iteration < opt.densify_until_iter`
branch; outside it the statistics are left untouched. -/
def densification_stats_step (iteration densify_until_iter : ℕ)
    (s : DensifyStats) (visibility_filter : List Bool)
    (radii gradmag : List ℚ) : DensifyStats :=
  if iteration < densify_until_iter then
    { max_radii2D := update_max_radii2D s.max_radii2D visibility_filter radii,
      xyz_gradient_accum :=
        accumulate_grad s.xyz_gradient_accum visibility_filter gradmag,
      denom := accumulate_denom s.denom visibility_filter }
  else s

theorem update_max_radii2D_getD (ms : List ℚ) (vs : List Bool) (rs : List ℚ)
    (i : ℕ) (hi : i < ms.length) (hvi : i < vs.length) (hri : i < rs.length) :
    (update_max_radii2D ms vs rs).getD i 0 =
      if vs.getD i false then max (ms.getD i 0) (rs.getD i 0)
      else ms.getD i 0 := by
  induction ms generalizing vs rs i with
  | nil => simp at hi
  | cons m ms ih =>
    cases vs with
    | nil => simp at hvi
    | cons v vs =>
      cases rs with
      | nil => simp at hri
      | cons r rs =>
        cases i with
        | zero => simp [update_max_radii2D]
        | succ n =>
          simp only [update_max_radii2D, List.getD_cons_succ]
          exact ih vs rs n (by simpa using hi) (by simpa using hvi)
            (by simpa using hri)

theorem accumulate_grad_getD (as' : List ℚ) (vs : List Bool) (gs : List ℚ)
    (i : ℕ) (hi : i < as'.length) (hvi : i < vs.length) (hgi : i < gs.length) :
    (accumulate_grad as' vs gs).getD i 0 =
      if vs.getD i false then as'.getD i 0 + gs.getD i 0
      else as'.getD i 0 := by
  induction as' generalizing vs gs i with
  | nil => simp at hi
  | cons a as'' ih =>
    cases vs with
    | nil => simp at hvi
    | cons v vs =>
      cases gs with
      | nil => simp at hgi
      | cons g gs =>
        cases i with
        | zero => simp [accumulate_grad]
        | succ n =>
          simp only [accumulate_grad, List.getD_cons_succ]
          exact ih vs gs n (by simpa using hi) (by simpa using hvi)
            (by simpa using hgi)

theorem accumulate_denom_getD (ds : List ℕ) (vs : List Bool)
    (i : ℕ) (hi : i < ds.length) (hvi : i < vs.length) :
    (accumulate_denom ds vs).getD i 0 =
      if vs.getD i false then ds.getD i 0 + 1 else ds.getD i 0 := by
  induction ds generalizing vs i with
  | nil => simp at hi
  | cons d ds ih =>
    cases vs with
    | nil => simp at hvi
    | cons v vs =>
      cases i with
      | zero => simp [accumulate_denom]
      | succ n =>
        simp only [accumulate_denom, List.getD_cons_succ]
        exact ih vs n (by simpa using hi) (by simpa using hvi)

/-- C6 (counterexample): at `iteration = densify_until_iter` (here both 3)
a visible primitive with current radius 5 and gradient magnitude 2 leaves
the statistics `⟨[1], [0], [0]⟩` completely unchanged — the claimed
"including iterations at or after densify_until_iter" update does not
happen, because the updates sit inside `if iteration < densify_until_iter`. -/
theorem C6_stats_counterexample :
    densification_stats_step 3 3 ⟨[1], [0], [0]⟩ [true] [5] [2] =
        ⟨[1], [0], [0]⟩ ∧
      (⟨[1], [0], [0]⟩ : DensifyStats) ≠ ⟨[5], [2], [1]⟩ := by
  constructor
  · unfold densification_stats_step
    rw [if_neg (by omega)]
  · intro h
    simp only [DensifyStats.mk.injEq] at h
    exact absurd h.1 (by norm_num)

/-- C6 (amended): at every iteration strictly before `densify_until_iter`,
the per-primitive maximum screen radius is updated as the elementwise
maximum with the current radii and the gradient statistic and visit count
are accumulated, exactly for the visible primitives, leaving non-visible
primitives unchanged; at every iteration at or after `densify_until_iter`
the statistics are left entirely unchanged. -/
theorem C6_stats_tracking (iteration duntil : ℕ) (s : DensifyStats)
    (vis : List Bool) (radii gradmag : List ℚ) :
    (iteration < duntil →
      ∀ i, i < s.max_radii2D.length → i < s.xyz_gradient_accum.length →
        i < s.denom.length → i < vis.length → i < radii.length →
        i < gradmag.length →
        ((vis.getD i false = true →
          (densification_stats_step iteration duntil s vis radii
              gradmag).max_radii2D.getD i 0 =
            max (s.max_radii2D.getD i 0) (radii.getD i 0) ∧
          (densification_stats_step iteration duntil s vis radii
              gradmag).xyz_gradient_accum.getD i 0 =
            s.xyz_gradient_accum.getD i 0 + gradmag.getD i 0 ∧
          (densification_stats_step iteration duntil s vis radii
              gradmag).denom.getD i 0 = s.denom.getD i 0 + 1) ∧
        (vis.getD i false = false →
          (densification_stats_step iteration duntil s vis radii
              gradmag).max_radii2D.getD i 0 = s.max_radii2D.getD i 0 ∧
          (densification_stats_step iteration duntil s vis radii
              gradmag).xyz_gradient_accum.getD i 0 =
            s.xyz_gradient_accum.getD i 0 ∧
          (densification_stats_step iteration duntil s vis radii
              gradmag).denom.getD i 0 = s.denom.getD i 0))) ∧
    (duntil ≤ iteration →
      densification_stats_step iteration duntil s vis radii gradmag = s) := by
  constructor
  · intro hlt i h1 h2 h3 h4 h5 h6
    unfold densification_stats_step
    rw [if_pos hlt]
    constructor
    · intro hv
      refine ⟨?_, ?_, ?_⟩
      · rw [update_max_radii2D_getD s.max_radii2D vis radii i h1 h4 h5, if_pos hv]
      · rw [accumulate_grad_getD s.xyz_gradient_accum vis gradmag i h2 h4 h6,
          if_pos hv]
      · rw [accumulate_denom_getD s.denom vis i h3 h4, if_pos hv]
    · intro hv
      refine ⟨?_, ?_, ?_⟩
      · rw [update_max_radii2D_getD s.max_radii2D vis radii i h1 h4 h5, hv]
        simp
      · rw [accumulate_grad_getD s.xyz_gradient_accum vis gradmag i h2 h4 h6, hv]
        simp
      · rw [accumulate_denom_getD s.denom vis i h3 h4, hv]
        simp
  · intro hge
    unfold densification_stats_step
    rw [if_neg (by omega)]

/-- C6 (witness): the amended tracking fact at a concrete two-primitive
population at iteration 0 with window end 3, one primitive visible. -/
theorem C6_stats_tracking_witness :
    ((0 : ℕ) < 3 ∧
      ([true, false].getD 0 false = true) ∧
      (densification_stats_step 0 3 ⟨[1, 4], [0, 0], [0, 0]⟩ [true, false]
          [5, 9] [2, 7]).max_radii2D.getD 0 0 =
        max (([1, 4] : List ℚ).getD 0 0) (([5, 9] : List ℚ).getD 0 0)) ∧
    (densification_stats_step 3 3 ⟨[1, 4], [0, 0], [0, 0]⟩ [true, false]
        [5, 9] [2, 7]) = ⟨[1, 4], [0, 0], [0, 0]⟩ :=
  ⟨⟨by omega, rfl,
    (((C6_stats_tracking 0 3 ⟨[1, 4], [0, 0], [0, 0]⟩ [true, false]
        [5, 9] [2, 7]).1 (by omega) 0 (by simp) (by simp) (by simp) (by simp)
        (by simp) (by simp)).1 rfl).1⟩,
    (C6_stats_tracking 3 3 ⟨[1, 4], [0, 0], [0, 0]⟩ [true, false]
        [5, 9] [2, 7]).2 (by omega)⟩

/-! ## Flagged-primitive selection (train.py lines 196, 220-231) -/

/-- Embedding of train.py line 225: boolean-mask row selection
`pixel_to_gaussians_flat[high_discrepancy_mask_flat]` — keep the rows at
positions where the flag is `True`, in order. -/
def select_flagged_rows : List Bool → List (List ℤ) → List (List ℤ)
  | true :: ms, l :: ls => l :: select_flagged_rows ms ls
  | false :: ms, _ :: ls => select_flagged_rows ms ls
  | _, _ => []

/-- Embedding of train.py lines 196 and 220-231: the per-pixel contributor
lists are truncated to their first three entries
(`pixel_to_gaussians = pixel_to_gaussians[:,:,:3]`), the rows of flagged
pixels are selected, flattened, entries `>= 0` are kept
(`selected_gaussians[selected_gaussians >= 0]`), and `torch.unique`
returns the sorted deduplicated indices. -/
def gaussians_to_densify_of (mask : List Bool)
    (pixel_to_gaussians : List (List ℤ)) : List ℤ :=
  let truncated := pixel_to_gaussians.map (fun l => l.take 3)
  let selected := select_flagged_rows mask truncated
  let valid := selected.flatten.filter (fun g => decide (0 ≤ g))
  (valid.insertionSort (· ≤ ·)).dedup

theorem mem_select_flagged_rows (l : List ℤ) (ms : List Bool)
    (ls : List (List ℤ)) :
    l ∈ select_flagged_rows ms ls ↔
      ∃ i, i < ls.length ∧ ms.getD i false = true ∧ ls.getD i [] = l := by
  induction ms generalizing ls with
  | nil =>
    cases ls <;> simp [select_flagged_rows]
  | cons m ms ih =>
    cases ls with
    | nil => simp [select_flagged_rows]
    | cons x ls =>
      cases m with
      | false =>
        simp only [select_flagged_rows]
        rw [ih]
        constructor
        · rintro ⟨i, h1, h2, h3⟩
          exact ⟨i + 1, by simpa using h1, by simpa using h2, by simpa using h3⟩
        · rintro ⟨i, h1, h2, h3⟩
          cases i with
          | zero => simp at h2
          | succ n =>
            exact ⟨n, by simpa using h1, by simpa using h2, by simpa using h3⟩
      | true =>
        simp only [select_flagged_rows, List.mem_cons]
        rw [ih]
        constructor
        · rintro (rfl | ⟨i, h1, h2, h3⟩)
          · exact ⟨0, by simp, by simp, by simp⟩
          · exact ⟨i + 1, by simpa using h1, by simpa using h2, by simpa using h3⟩
        · rintro ⟨i, h1, h2, h3⟩
          cases i with
          | zero =>
            left
            simpa using h3.symm
          | succ n =>
            right
            exact ⟨n, by simpa using h1, by simpa using h2, by simpa using h3⟩

theorem getD_map_take3 (p2g : List (List ℤ)) (i : ℕ) (hi : i < p2g.length) :
    (p2g.map (fun l => l.take 3)).getD i [] = (p2g.getD i []).take 3 := by
  induction p2g generalizing i with
  | nil => simp at hi
  | cons x xs ih =>
    cases i with
    | zero => simp
    | succ n =>
      simp only [List.map_cons, List.getD_cons_succ]
      exact ih n (by simpa using hi)

/-- C4 (counterexample): for a single flagged pixel with contributor list
`[5, 6, 7, 8]` (fixed width 4, no sentinel), the code returns `[5, 6, 7]`:
the non-sentinel contributor `8` of a flagged pixel is omitted, because
the code truncates every list to its first three entries before
selection. -/
theorem C4_selection_counterexample :
    gaussians_to_densify_of [true] [[5, 6, 7, 8]] = [5, 6, 7] ∧
      (8 : ℤ) ∉ gaussians_to_densify_of [true] [[5, 6, 7, 8]] ∧
      (8 : ℤ) ∈ ([5, 6, 7, 8] : List ℤ) ∧ (0 : ℤ) ≤ 8 := by
  refine ⟨by decide, by decide, by decide, by decide⟩

/-- C4 (amended): the set of primitives flagged for priority densification
equals the deduplicated set of all non-sentinel (`>= 0`) entries taken from
the first three entries of the contributing-primitive list of every flagged
pixel; every returned index is non-negative and listed once.  Contributors
beyond the third list position are not considered. -/
theorem C4_flagged_primitive_selection (mask : List Bool)
    (p2g : List (List ℤ)) (g : ℤ) :
    (g ∈ gaussians_to_densify_of mask p2g ↔
      0 ≤ g ∧ ∃ i, i < p2g.length ∧ mask.getD i false = true ∧
        g ∈ (p2g.getD i []).take 3) ∧
    (gaussians_to_densify_of mask p2g).Nodup := by
  constructor
  · unfold gaussians_to_densify_of
    rw [List.mem_dedup, (List.perm_insertionSort (· ≤ ·) _).mem_iff,
      List.mem_filter, List.mem_flatten]
    constructor
    · rintro ⟨⟨row, hrow, hg⟩, hpos⟩
      rw [mem_select_flagged_rows] at hrow
      obtain ⟨i, h1, h2, h3⟩ := hrow
      have h1' : i < p2g.length := by simpa using h1
      refine ⟨by simpa using hpos, i, h1', h2, ?_⟩
      rw [← getD_map_take3 p2g i h1', h3]
      exact hg
    · rintro ⟨hpos, i, h1, h2, h3⟩
      refine ⟨⟨(p2g.getD i []).take 3, ?_, h3⟩, by simpa using hpos⟩
      rw [mem_select_flagged_rows]
      exact ⟨i, by simpa using h1, h2, getD_map_take3 p2g i h1⟩
  · exact List.nodup_dedup _

/-! ## Discrepancy-map normalization and percentile thresholding
(train.py lines 201-216) -/

/-- Maximum entry of a non-empty flattened tensor, as `tensor.max()`. -/
def listMax (l : List ℚ) : ℚ := l.foldl max (l.headD 0)

/-- Minimum entry of a non-empty flattened tensor, as `tensor.min()`. -/
def listMin (l : List ℚ) : ℚ := l.foldl min (l.headD 0)

/-- Embedding of train.py lines 201-204 over the rationals:
`normalized_tensor = (per_pixel_discrepancy - d_min) / (d_max - d_min)`.
This total-division embedding is faithful to the float source whenever
`d_max != d_min`; the degenerate case is modelled separately by
`normalized_map_float`. -/
def normalized_map (dmap : List ℚ) : List ℚ :=
  dmap.map (fun x => (x - listMin dmap) / (listMax dmap - listMin dmap))

/-- Embedding of train.py lines 201-204 keeping IEEE-754 semantics for the
degenerate case: the division `(x - d_min) / (d_max - d_min)` is unguarded
in the source, so when the map is uniform (`d_max == d_min`) every
quotient is `0.0/0.0 = NaN`; `none` models such a non-finite float,
`some q` a finite one. -/
def normalized_map_float (dmap : List ℚ) : List (Option ℚ) :=
  dmap.map (fun x =>
    if listMax dmap - listMin dmap = 0 then none
    else some ((x - listMin dmap) / (listMax dmap - listMin dmap)))

/-- Embedding of `torch.quantile(t.flatten(), p)` with the default linear
interpolation: sort ascending, take the virtual index `p * (n - 1)`, and
interpolate linearly between the neighbouring order statistics. -/
def torchQuantile (xs : List ℚ) (p : ℚ) : ℚ :=
  let s := xs.insertionSort (· ≤ ·)
  let n := s.length
  let pos := p * ((n : ℚ) - 1)
  let i := ⌊pos⌋.toNat
  let lo := s.getD i 0
  let hi := s.getD (min (i + 1) (n - 1)) 0
  lo + (pos - (i : ℚ)) * (hi - lo)

/-- Embedding of train.py lines 206-213: `percentile = 0.999`, overridden
to `0.995` when `7001 <= iteration <= opt.densify_until_iter`. -/
def localizer_percentile (iteration densify_until_iter : ℕ) : ℚ :=
  if 7001 ≤ iteration ∧ iteration ≤ densify_until_iter then 995 / 1000
  else 999 / 1000

/-- Embedding of train.py line 215: the cutoff is the quantile of the
flattened *normalized* map at the scheduled percentile. -/
def localizer_cutoff (iteration densify_until_iter : ℕ) (dmap : List ℚ) : ℚ :=
  torchQuantile (normalized_map dmap)
    (localizer_percentile iteration densify_until_iter)

/-- Embedding of train.py line 216: the per-pixel boolean flag compares the
*unnormalized* discrepancy map against the cutoff:
`discrepancy_mask = per_pixel_discrepancy > cutoff`. -/
def localizer_flags (iteration densify_until_iter : ℕ) (dmap : List ℚ) :
    List Bool :=
  dmap.map (fun x => decide (localizer_cutoff iteration densify_until_iter dmap < x))

/-- Formalisation of the wording of claim C1 (refinement target, not taken
from the source): a pixel is flagged iff its *normalized* value exceeds
the quantile of the normalized map at the scheduled percentile. -/
def claimed_localizer_flags (iteration densify_until_iter : ℕ)
    (dmap : List ℚ) : List Bool :=
  (normalized_map dmap).map
    (fun nx => decide (localizer_cutoff iteration densify_until_iter dmap < nx))

theorem getD_map_of_lt {α β : Type} (f : α → β) (l : List α) (i : ℕ)
    (d : α) (d' : β) (hi : i < l.length) :
    (l.map f).getD i d' = f (l.getD i d) := by
  induction l generalizing i with
  | nil => simp at hi
  | cons x xs ih =>
    cases i with
    | zero => simp
    | succ n =>
      simp only [List.map_cons, List.getD_cons_succ]
      exact ih n (by simpa using hi)

theorem localizer_cutoff_eval_024 :
    localizer_cutoff 7000 15000 [0, 2, 4] = 999 / 1000 := by
  norm_num [localizer_cutoff, localizer_percentile, torchQuantile,
    normalized_map, listMin, listMax, List.foldl, min_def, max_def,
    List.insertionSort, List.orderedInsert]

/-- C1 (counterexample): for the discrepancy map `[0, 2, 4]` at iteration
7000 (inside the window 500..15000, percentile 0.999) the normalized map
is `[0, 1/2, 1]` and the 0.999-quantile of it is `999/1000`; the code
flags `[false, true, true]` because it compares the unnormalized values
`0, 2, 4` against the cutoff, while thresholding the normalized map as
the claim states would flag `[false, false, true]`. -/
theorem C1_threshold_counterexample :
    (500 ≤ 7000 ∧ 7000 ≤ 15000) ∧
      localizer_flags 7000 15000 [0, 2, 4] = [false, true, true] ∧
      claimed_localizer_flags 7000 15000 [0, 2, 4] = [false, false, true] ∧
      localizer_flags 7000 15000 [0, 2, 4] ≠
        claimed_localizer_flags 7000 15000 [0, 2, 4] := by
  have h1 : localizer_flags 7000 15000 [0, 2, 4] = [false, true, true] := by
    norm_num [localizer_flags, localizer_cutoff_eval_024]
  have h2 : claimed_localizer_flags 7000 15000 [0, 2, 4] =
      [false, false, true] := by
    norm_num [claimed_localizer_flags, localizer_cutoff_eval_024,
      normalized_map, listMin, listMax, List.foldl, min_def, max_def]
  refine ⟨by omega, h1, h2, by rw [h1, h2]; simp⟩

/-- C1 (amended): for every iteration inside the localizer window
`[densify_from_iter, densify_until_iter]` and every non-uniform
discrepancy map, a pixel is flagged if and only if its *unnormalized*
discrepancy value exceeds the quantile of the min-max-normalized map at
percentile `p`, where `p = 0.999` for iterations up to and including 7000
and `p = 0.995` for iterations from 7001 through the window end. -/
theorem C1_discrepancy_threshold (iteration dfrom duntil : ℕ) (dmap : List ℚ)
    (i : ℕ) (hwin1 : dfrom ≤ iteration) (hwin2 : iteration ≤ duntil)
    (hi : i < dmap.length) (hnd : listMin dmap < listMax dmap) :
    ((localizer_flags iteration duntil dmap).getD i false = true ↔
      localizer_cutoff iteration duntil dmap < dmap.getD i 0) ∧
    (iteration ≤ 7000 →
      localizer_cutoff iteration duntil dmap =
        torchQuantile (normalized_map dmap) (999 / 1000)) ∧
    (7001 ≤ iteration →
      localizer_cutoff iteration duntil dmap =
        torchQuantile (normalized_map dmap) (995 / 1000)) := by
  refine ⟨?_, ?_, ?_⟩
  · unfold localizer_flags
    rw [getD_map_of_lt _ dmap i 0 false hi]
    exact decide_eq_true_iff
  · intro h
    unfold localizer_cutoff localizer_percentile
    rw [if_neg (by omega)]
  · intro h
    unfold localizer_cutoff localizer_percentile
    rw [if_pos ⟨h, hwin2⟩]

/-- C1 (witness): the amended thresholding fact at iteration 600 in the
window 500..15000 on the three-pixel map `[0, 2, 4]`, pixel index 1. -/
theorem C1_discrepancy_threshold_witness :
    (500 ≤ 600 ∧ 600 ≤ 15000 ∧ 1 < ([0, 2, 4] : List ℚ).length ∧
      listMin [0, 2, 4] < listMax [0, 2, 4]) ∧
    (((localizer_flags 600 15000 [0, 2, 4]).getD 1 false = true ↔
      localizer_cutoff 600 15000 [0, 2, 4] < ([0, 2, 4] : List ℚ).getD 1 0) ∧
    (600 ≤ 7000 →
      localizer_cutoff 600 15000 [0, 2, 4] =
        torchQuantile (normalized_map [0, 2, 4]) (999 / 1000)) ∧
    (7001 ≤ 600 →
      localizer_cutoff 600 15000 [0, 2, 4] =
        torchQuantile (normalized_map [0, 2, 4]) (995 / 1000))) :=
  ⟨⟨by omega, by omega, by norm_num,
      by norm_num [listMin, listMax, List.foldl, min_def, max_def]⟩,
    C1_discrepancy_threshold 600 500 15000 [0, 2, 4] 1 (by omega) (by omega)
      (by norm_num)
      (by norm_num [listMin, listMax, List.foldl, min_def, max_def])⟩

/-- C3: the min-max normalization of train.py line 204 is *not* guarded
against a uniform discrepancy map: on the uniform map `[1, 1, 1, 1]`
(`d_max == d_min`) every pixel's quotient is the float `0.0/0.0`, a NaN
(modelled as `none`), so the localizer propagates invalid values instead
of producing a well-defined normalized map. -/
theorem C3_normalization_unguarded :
    normalized_map_float [1, 1, 1, 1] = [none, none, none, none] := by
  norm_num [normalized_map_float, listMin, listMax, List.foldl, min_def,
    max_def]

end Wav3dgs
